import Mathlib

/-!
Shallow embedding of the remote-backed blockchain adapter and its network
bootstrap, translated from:
  src/client/mini-node/src/blockchain_rpc_client.rs
  src/client/mini-node/src/network.rs
  src/client/relay-chain-minimal-node/src/lib.rs
Hashes and block numbers are modelled as natural numbers; the remote RPC
endpoint is modelled as a record of query functions (one per RPC method the
embedded code calls). Rust panics (expect, unwrap, the unimplemented and
todo macro invocations) are modelled by an explicit abort outcome.
-/

/-- A block hash (H256 in the source), modelled abstractly as a natural. -/
abbrev Hash : Type := Nat

/-- Relay-chain block header (polkadot Header). The content hash of a header,
computed by the Rust method header.hash(), is modelled by the abstract
function hashOf carried in the remote-endpoint state. -/
structure Header where
  parent_hash : Hash
  number : Nat
  state_root : Hash
  extrinsics_root : Hash
  deriving DecidableEq, Repr

/-- Errors of the remote RPC transport (RelayChainError in the source). -/
inductive RpcErr where
  | genericError (msg : String)
  | transport (msg : String)
  deriving DecidableEq, Repr

/-- Rendering of a RelayChainError by to_string, used by map_err in the
source when converting into a backend error. -/
def RpcErr.render : RpcErr → String
  | .genericError m => m
  | .transport m => m

/-- sp_blockchain errors produced by the adapter. -/
inductive BErr where
  | backend (msg : String)
  deriving DecidableEq, Repr

/-- sp_api::ApiError as produced by the adapter: every error is wrapped as
ApiError::Application over the boxed relay-chain error. -/
inductive ApiErr where
  | application (e : RpcErr)
  deriving DecidableEq, Repr

/-- Outcome of running a piece of Rust code that may panic: either a normal
return value or an abort carrying the panic message. -/
inductive PanicOr (α : Type) where
  | ok (a : α)
  | panicked (msg : String)
  deriving DecidableEq, Repr

/-- True when the computation returned normally. -/
def PanicOr.isOk : PanicOr α → Bool
  | .ok _ => true
  | .panicked _ => false

/-- True when the computation aborted. -/
def PanicOr.isPanicked : PanicOr α → Bool
  | .ok _ => false
  | .panicked _ => true

/-- sp_api::BlockId: a block pointer, either a content hash or an ordinal
block number. -/
inductive BlockId where
  | hash (h : Hash)
  | number (n : Nat)
  deriving DecidableEq, Repr

/-- sp_consensus::BlockStatus, all five variants. -/
inductive ConsensusBlockStatus where
  | inChainWithState
  | inChainPruned
  | queued
  | knownBad
  | unknown
  deriving DecidableEq, Repr

/-- sp_blockchain::Info, the composite chain-info snapshot. -/
structure Info where
  best_hash : Hash
  best_number : Nat
  genesis_hash : Hash
  finalized_hash : Hash
  finalized_number : Nat
  finalized_state : Option (Hash × Nat)
  number_leaves : Nat
  block_gap : Option (Nat × Nat)
  deriving DecidableEq, Repr

/-- The remote endpoint reached through RelayChainRPCClient, modelled as a
record of the query functions the embedded code calls, plus the content-hash
function for headers and the two push-subscription item sequences. -/
structure RemoteState where
  chainGetHeader : Option Hash → Except RpcErr (Option Header)
  chainGetHead : Option Nat → Except RpcErr Hash
  chainGetFinalizedHead : Except RpcErr Hash
  hashOf : Header → Hash
  allHeadsSubscription : List (Except RpcErr Header)
  finalizedHeadsSubscription : List (Except RpcErr Header)
  parachainHostValidators : Hash → Except RpcErr (List Nat)
  parachainHostValidatorGroups : Hash → Except RpcErr (List (List Nat) × Nat)
  parachainHostAvailabilityCores : Hash → Except RpcErr (List Nat)
  parachainHostPersistedValidationData : Hash → Nat → Nat → Except RpcErr (Option Nat)
  parachainHostSessionIndexForChild : Hash → Except RpcErr Nat
  parachainHostSessionInfo : Hash → Nat → Except RpcErr (Option Nat)

namespace HeaderBackend

/-- HeaderBackend::header. A hash pointer blocks on chain_get_header and maps
a transport error to a backend error; a number pointer aborts through the
unimplemented macro with the message given in the source. -/
def header (s : RemoteState) (id : BlockId) :
    PanicOr (Except BErr (Option Header)) :=
  match id with
  | .hash h =>
    .ok ((s.chainGetHeader (some h)).mapError (fun e => BErr.backend e.render))
  | .number _ => .panicked ("header with number not supported")

/-- HeaderBackend::info. Issues, in sequence: best header (chain_get_header
None, expect + unwrap), head at depth 0 (chain_get_head (Some 0), expect),
finalized head (chain_get_finalized_head, expect), header of the finalized
head (chain_get_header, expect + unwrap); then assembles the snapshot. -/
def info (s : RemoteState) : PanicOr Info :=
  match s.chainGetHeader none with
  | .error _ => .panicked ("get_header")
  | .ok none => .panicked ("called unwrap on a None value")
  | .ok (some best_header) =>
    match s.chainGetHead (some 0) with
    | .error _ => .panicked ("get_head")
    | .ok genesis_hash =>
      match s.chainGetFinalizedHead with
      | .error _ => .panicked ("get_head")
      | .ok finalized_head =>
        match s.chainGetHeader (some finalized_head) with
        | .error _ => .panicked ("get_head")
        | .ok none => .panicked ("called unwrap on a None value")
        | .ok (some finalized_header) =>
          .ok
            { best_hash := s.hashOf best_header
              best_number := best_header.number
              genesis_hash := genesis_hash
              finalized_hash := finalized_head
              finalized_number := finalized_header.number
              finalized_state := none
              number_leaves := 1
              block_gap := none }

/-- HeaderBackend::status: aborts through the unimplemented macro for every
pointer. -/
def status (_s : RemoteState) (_id : BlockId) :
    PanicOr (Except BErr ConsensusBlockStatus) :=
  .panicked ("not implemented")

/-- HeaderBackend::number: blocks on chain_get_header for the given hash,
maps a transport error to a backend error, and projects the number field of
the header when one is returned. -/
def number (s : RemoteState) (h : Hash) : Except BErr (Option Nat) :=
  ((s.chainGetHeader (some h)).mapError (fun e => BErr.backend e.render)).map
    (fun maybe_header => maybe_header.map (fun hd => hd.number))

/-- HeaderBackend::hash (block hash by number): aborts through the
unimplemented macro. -/
def hash (_s : RemoteState) (_number : Nat) :
    PanicOr (Except BErr (Option Hash)) :=
  .panicked ("not implemented")

end HeaderBackend

namespace BlockBackend

/-- BlockBackend::block_body: aborts through the unimplemented macro. -/
def block_body (_s : RemoteState) (_id : BlockId) :
    PanicOr (Except BErr (Option (List Nat))) :=
  .panicked ("not implemented")

/-- BlockBackend::block_indexed_body: aborts through the unimplemented
macro. -/
def block_indexed_body (_s : RemoteState) (_id : BlockId) :
    PanicOr (Except BErr (Option (List (List Nat)))) :=
  .panicked ("not implemented")

/-- BlockBackend::block: aborts through the unimplemented macro. -/
def block (_s : RemoteState) (_id : BlockId) :
    PanicOr (Except BErr (Option (Header × List Nat))) :=
  .panicked ("not implemented")

/-- BlockBackend::block_status. A hash pointer blocks on chain_get_header
with expect (so a transport error aborts); a returned header maps to
InChainWithState, an empty result to Unknown. A number pointer aborts
through the todo macro with the message given in the source. -/
def block_status (s : RemoteState) (id : BlockId) :
    PanicOr (Except BErr ConsensusBlockStatus) :=
  match id with
  | .hash h =>
    match s.chainGetHeader (some h) with
    | .error _ => .panicked ("get_header")
    | .ok (some _header) => .ok (.ok .inChainWithState)
    | .ok none => .ok (.ok .unknown)
  | .number _ => .panicked ("not yet implemented: Not supported blockId::number, block_status")

/-- BlockBackend::justifications: aborts through the unimplemented macro. -/
def justifications (_s : RemoteState) (_id : BlockId) :
    PanicOr (Except BErr (Option (List Nat))) :=
  .panicked ("not implemented")

/-- BlockBackend::block_hash (by number): aborts through the unimplemented
macro. -/
def block_hash (_s : RemoteState) (_number : Nat) :
    PanicOr (Except BErr (Option Hash)) :=
  .panicked ("not implemented")

/-- BlockBackend::indexed_transaction: aborts through the unimplemented
macro. -/
def indexed_transaction (_s : RemoteState) (_hash : Hash) :
    PanicOr (Except BErr (Option (List Nat))) :=
  .panicked ("not implemented")

/-- BlockBackend::requires_full_sync returns false. -/
def requires_full_sync (_s : RemoteState) : Bool := false

end BlockBackend

namespace ProofProvider

/-- ProofProvider::read_proof: aborts through the unimplemented macro. -/
def read_proof (_s : RemoteState) (_id : BlockId) (_keys : List (List Nat)) :
    PanicOr (Except BErr (List Nat)) :=
  .panicked ("not implemented")

/-- ProofProvider::read_child_proof: aborts through the unimplemented
macro. -/
def read_child_proof (_s : RemoteState) (_id : BlockId) (_keys : List (List Nat)) :
    PanicOr (Except BErr (List Nat)) :=
  .panicked ("not implemented")

/-- ProofProvider::execution_proof: aborts through the unimplemented
macro. -/
def execution_proof (_s : RemoteState) (_id : BlockId) (_method : String)
    (_call_data : List Nat) : PanicOr (Except BErr (List Nat × List Nat)) :=
  .panicked ("not implemented")

/-- ProofProvider::read_proof_collection: aborts through the unimplemented
macro. -/
def read_proof_collection (_s : RemoteState) (_id : BlockId)
    (_start_keys : List (List Nat)) (_size_limit : Nat) :
    PanicOr (Except BErr (List Nat × Nat)) :=
  .panicked ("not implemented")

/-- ProofProvider::storage_collection: aborts through the unimplemented
macro. -/
def storage_collection (_s : RemoteState) (_id : BlockId)
    (_start_key : List Nat) (_size_limit : Nat) :
    PanicOr (Except BErr (List (List Nat × Bool))) :=
  .panicked ("not implemented")

/-- ProofProvider::verify_range_proof: aborts through the unimplemented
macro. -/
def verify_range_proof (_s : RemoteState) (_root : Hash)
    (_proof : List Nat) (_start_keys : List (List Nat)) :
    PanicOr (Except BErr (List Nat × Nat)) :=
  .panicked ("not implemented")

end ProofProvider

namespace HeaderMetadata

/-- HeaderMetadata::header_metadata: aborts through the unimplemented
macro. -/
def header_metadata (_s : RemoteState) (_hash : Hash) :
    PanicOr (Except BErr Header) :=
  .panicked ("not implemented")

/-- HeaderMetadata::insert_header_metadata: aborts through the unimplemented
macro. -/
def insert_header_metadata (_s : RemoteState) (_hash : Hash) (_meta : Header) :
    PanicOr Unit :=
  .panicked ("not implemented")

/-- HeaderMetadata::remove_header_metadata: aborts through the unimplemented
macro. -/
def remove_header_metadata (_s : RemoteState) (_hash : Hash) : PanicOr Unit :=
  .panicked ("not implemented")

end HeaderMetadata

/-- The error value returned by every OverseerRuntimeClient method of the
adapter when the block pointer is not a hash, built locally without touching
the remote endpoint. -/
def onlyHashErr : ApiErr :=
  .application (.genericError ("Only hash is supported for RPC methods"))

namespace OverseerRuntimeClient

/-- OverseerRuntimeClient::validators: dispatches to the remote call on a
hash pointer, otherwise returns the local only-hash error. -/
def validators (s : RemoteState) (at_ : BlockId) :
    PanicOr (Except ApiErr (List Nat)) :=
  match at_ with
  | .hash h => .ok ((s.parachainHostValidators h).mapError (fun e => .application e))
  | _ => .ok (.error onlyHashErr)

/-- OverseerRuntimeClient::validator_groups: dispatches to the remote call on
a hash pointer, otherwise returns the local only-hash error. -/
def validator_groups (s : RemoteState) (at_ : BlockId) :
    PanicOr (Except ApiErr (List (List Nat) × Nat)) :=
  match at_ with
  | .hash h => .ok ((s.parachainHostValidatorGroups h).mapError (fun e => .application e))
  | _ => .ok (.error onlyHashErr)

/-- OverseerRuntimeClient::availability_cores: dispatches to the remote call
on a hash pointer, otherwise returns the local only-hash error. -/
def availability_cores (s : RemoteState) (at_ : BlockId) :
    PanicOr (Except ApiErr (List Nat)) :=
  match at_ with
  | .hash h => .ok ((s.parachainHostAvailabilityCores h).mapError (fun e => .application e))
  | _ => .ok (.error onlyHashErr)

/-- OverseerRuntimeClient::persisted_validation_data: dispatches to the
remote call on a hash pointer, otherwise returns the local only-hash
error. -/
def persisted_validation_data (s : RemoteState) (at_ : BlockId)
    (para_id : Nat) (assumption : Nat) :
    PanicOr (Except ApiErr (Option Nat)) :=
  match at_ with
  | .hash h =>
    .ok ((s.parachainHostPersistedValidationData h para_id assumption).mapError
      (fun e => .application e))
  | _ => .ok (.error onlyHashErr)

/-- OverseerRuntimeClient::session_index_for_child: dispatches to the remote
call on a hash pointer, otherwise returns the local only-hash error. -/
def session_index_for_child (s : RemoteState) (at_ : BlockId) :
    PanicOr (Except ApiErr Nat) :=
  match at_ with
  | .hash h => .ok ((s.parachainHostSessionIndexForChild h).mapError (fun e => .application e))
  | _ => .ok (.error onlyHashErr)

/-- OverseerRuntimeClient::session_info: dispatches to the remote call on a
hash pointer, otherwise returns the local only-hash error. -/
def session_info (s : RemoteState) (at_ : BlockId) (index : Nat) :
    PanicOr (Except ApiErr (Option Nat)) :=
  match at_ with
  | .hash h => .ok ((s.parachainHostSessionInfo h index).mapError (fun e => .application e))
  | _ => .ok (.error onlyHashErr)

/-- OverseerRuntimeClient::on_chain_votes: aborts through the unimplemented
macro for every pointer. -/
def on_chain_votes (_s : RemoteState) (_at : BlockId) :
    PanicOr (Except ApiErr (Option Nat)) :=
  .panicked ("not implemented")

/-- OverseerRuntimeClient::configuration: aborts through the unimplemented
macro for every pointer. -/
def configuration (_s : RemoteState) (_at : BlockId) :
    PanicOr (Except ApiErr Nat) :=
  .panicked ("not implemented")

end OverseerRuntimeClient

/-- The filter_map combinator applied to a subscription in
import_notification_stream_async and finality_notification_stream_async:
an erroring item is logged and dropped (mapped to none), an Ok item is kept;
the stream itself continues past the dropped item. -/
def dropErroredItems (items : List (Except RpcErr Header)) : List Header :=
  items.filterMap (fun item => item.toOption)

/-- import_notification_stream_async: the all-heads subscription with
erroring items dropped. -/
def import_notification_stream_async (s : RemoteState) : List Header :=
  dropErroredItems s.allHeadsSubscription

/-- finality_notification_stream_async: the finalized-heads subscription with
erroring items dropped. -/
def finality_notification_stream_async (s : RemoteState) : List Header :=
  dropErroredItems s.finalizedHeadsSubscription

/-- A call made against the network handle by the driving loop. -/
inductive NetCall where
  | newBestBlockImported (hash : Hash) (number : Nat)
  | onBlockFinalized (hash : Hash) (number : Nat)
  deriving DecidableEq, Repr

/-- The select arms of the loop body in build_network_collator_future: the
new-best notification stream, the finality notification stream, and the
network worker future. -/
inductive Arm where
  | best
  | finality
  | net
  deriving DecidableEq, Repr

/-- State of the driving loop: the remaining items of the two fused
notification streams (an empty list means the stream is exhausted), plus the
content-hash function used by notification.hash(). -/
structure LoopState where
  bestStream : List Header
  finalityStream : List Header
  hashOf : Header → Hash

/-- One iteration of the select loop, given the arm the select fires.
Returns none when the loop body returns (the Stopped state), otherwise the
successor state and the network calls made.
The best arm polls next() on the fused stream: an item triggers
new_best_block_imported, the end of the stream makes the loop return.
The finality arm polls select_next_some(): an item triggers
on_block_finalized; on an exhausted stream that branch never resolves, so
firing it is impossible and the select takes some other arm instead —
modelled as a step with no effect.
The network arm drives internal bookkeeping with no observable effect. -/
def selectStep (st : LoopState) (arm : Arm) : Option (LoopState × List NetCall) :=
  match arm with
  | .best =>
    match st.bestStream with
    | [] => none
    | n :: rest =>
      some ({ st with bestStream := rest },
        [.newBestBlockImported (st.hashOf n) n.number])
  | .finality =>
    match st.finalityStream with
    | [] => some (st, [])
    | n :: rest =>
      some ({ st with finalityStream := rest },
        [.onBlockFinalized (st.hashOf n) n.number])
  | .net => some (st, [])

/-- Result of running the driving loop under a finite schedule of select
choices: either the loop returned (Stopped), or the schedule ran out with
the loop still running; both carry the network calls made. -/
inductive RunOutcome where
  | stopped (calls : List NetCall)
  | running (st : LoopState) (calls : List NetCall)

/-- Prefix further calls onto a run outcome. -/
def RunOutcome.prependCalls : RunOutcome → List NetCall → RunOutcome
  | .stopped cs, pre => .stopped (pre ++ cs)
  | .running st cs, pre => .running st (pre ++ cs)

/-- True when the loop reached the Stopped state. -/
def RunOutcome.isStopped : RunOutcome → Bool
  | .stopped _ => true
  | .running _ _ => false

/-- The network calls recorded in a run outcome. -/
def RunOutcome.callsOf : RunOutcome → List NetCall
  | .stopped cs => cs
  | .running _ cs => cs

/-- build_network_collator_future, run under a finite schedule of select
choices: iterate selectStep until the loop returns or the schedule ends. -/
def runLoop : List Arm → LoopState → RunOutcome
  | [], st => .running st []
  | a :: rest, st =>
    match selectStep st a with
    | none => .stopped []
    | some (st2, cs) => (runLoop rest st2).prependCalls cs

/-- The one-shot network start token of build_collator_network: either fired
through NetworkStarter::start_network, or dropped without firing. -/
inductive StartSignal where
  | fired
  | droppedWithoutFiring
  deriving DecidableEq, Repr

/-- Observable behaviour of the spawned network-worker task: whether the
warning was logged, and the run of the network future when it was polled at
all (none means the task returned before polling it). -/
structure WorkerRun where
  warned : Bool
  loopRun : Option RunOutcome

/-- The task spawned by build_collator_network: first awaits the one-shot
start receiver; if the sender was dropped it logs a warning and returns
without polling the network future; otherwise it awaits the network future
(the driving loop). -/
def networkWorkerTask (signal : StartSignal) (sched : List Arm)
    (st : LoopState) : WorkerRun :=
  match signal with
  | .droppedWithoutFiring => { warned := true, loopRun := none }
  | .fired => { warned := false, loopRun := some (runLoop sched st) }

/-- How a synchronous trait method bridges into its async remote call. -/
structure BlockingBridge where
  /-- The call runs on the async runtime the rest of the node uses (the
  bridge obtains the current tokio runtime handle and blocks on it). -/
  runsOnSharedRuntime : Bool
  /-- The calling executor thread is marked as allowed to block (the bridge
  wraps the call in the blocking-allowed escape of the tokio runtime). -/
  usesBlockingAllowedEscape : Bool
  deriving DecidableEq, Repr

/-- block_local: obtains the current tokio runtime handle and blocks on the
future inside the blocking-allowed escape of that runtime. -/
def block_local : BlockingBridge :=
  { runsOnSharedRuntime := true, usesBlockingAllowedEscape := true }

/-- futures::executor::block_on: parks the calling thread on a local
single-future executor; it neither targets the shared runtime handle nor
marks the thread as allowed to block. -/
def futures_executor_block_on : BlockingBridge :=
  { runsOnSharedRuntime := false, usesBlockingAllowedEscape := false }

/-- Bridge used by HeaderBackend::header: the source calls
futures::executor::block_on directly on the chain_get_header future. -/
def header_bridge : BlockingBridge := futures_executor_block_on

/-- Bridge used by HeaderBackend::info: every sub-query goes through
block_local. -/
def info_bridge : BlockingBridge := block_local

/-- Bridge used by HeaderBackend::number: the lookup goes through
block_local. -/
def number_bridge : BlockingBridge := block_local

/-- Bridge used by BlockBackend::block_status: the lookup goes through
block_local. -/
def block_status_bridge : BlockingBridge := block_local

/-- The all-zeros default hash (H256::default()). -/
def defaultHash : Hash := 0

/-- The inputs that new_minimal_relay_chain derives from the genesis hash:
the hash itself, the genesis-hash and fork-id arguments fed to
PeerSetProtocolNames::new and ReqProtocolNames::new, and the genesis hash
handed to build_collator_network. -/
structure MinimalNodeSetup where
  genesis_hash : Hash
  peer_set_genesis : Hash
  peer_set_fork_id : Option String
  req_protocol_genesis : Hash
  req_protocol_fork_id : Option String
  network_genesis : Hash
  deriving DecidableEq, Repr

/-- The genesis-hash determination and propagation fragment of
new_minimal_relay_chain: block_get_hash (Some 0) with expect (a transport
error aborts) and unwrap_or_default (an empty result silently becomes the
all-zeros default hash); the resulting hash is fed to the peer-set protocol
names, the request-response protocol names and the collator network. -/
def new_minimal_relay_chain (blockGetHashAt0 : Except RpcErr (Option Hash))
    (forkId : Option String) : PanicOr MinimalNodeSetup :=
  match blockGetHashAt0 with
  | .error _ => .panicked ("Crash here if no genesis is available")
  | .ok maybe_hash =>
    let genesis_hash := maybe_hash.getD defaultHash
    .ok
      { genesis_hash := genesis_hash
        peer_set_genesis := genesis_hash
        peer_set_fork_id := forkId
        req_protocol_genesis := genesis_hash
        req_protocol_fork_id := forkId
        network_genesis := genesis_hash }


/-- A concrete remote endpoint: genesis hash 1, best header at height 10
with content hash 10, finalized header at height 7 with content hash 7, and
subscriptions each containing one erroring item. -/
def bestHeader10 : Header :=
  { parent_hash := 9, number := 10, state_root := 0, extrinsics_root := 0 }

/-- The finalized header of the concrete remote endpoint. -/
def finalHeader7 : Header :=
  { parent_hash := 6, number := 7, state_root := 0, extrinsics_root := 0 }

/-- The concrete remote endpoint used to evaluate the adapter. -/
def demoState : RemoteState :=
  { chainGetHeader := fun q =>
      match q with
      | none => .ok (some bestHeader10)
      | some h =>
        if h = 7 then .ok (some finalHeader7)
        else if h = 10 then .ok (some bestHeader10)
        else .ok none
    chainGetHead := fun d =>
      match d with
      | some 0 => .ok 1
      | _ => .ok 10
    chainGetFinalizedHead := .ok 7
    hashOf := fun hd =>
      if hd.number = 10 then 10 else if hd.number = 7 then 7 else 0
    allHeadsSubscription :=
      [.ok bestHeader10, .error (.transport ("malformed item")), .ok finalHeader7]
    finalizedHeadsSubscription :=
      [.error (.transport ("malformed item")), .ok finalHeader7]
    parachainHostValidators := fun _ => .ok [1, 2, 3]
    parachainHostValidatorGroups := fun _ => .ok ([[0], [1]], 0)
    parachainHostAvailabilityCores := fun _ => .ok []
    parachainHostPersistedValidationData := fun _ _ _ => .ok none
    parachainHostSessionIndexForChild := fun _ => .ok 4
    parachainHostSessionInfo := fun _ _ => .ok none }

/-- A loop state whose finality stream is already exhausted while two best
blocks are still pending. -/
def demoLoopState : LoopState :=
  { bestStream :=
      [{ parent_hash := 21, number := 1, state_root := 0, extrinsics_root := 0 },
       { parent_hash := 22, number := 2, state_root := 0, extrinsics_root := 0 }]
    finalityStream := []
    hashOf := fun hd => hd.parent_hash }

/-- A loop state whose best stream is already exhausted. -/
def demoStoppedState : LoopState :=
  { bestStream := []
    finalityStream := [finalHeader7]
    hashOf := fun hd => hd.parent_hash }

/-- A schedule under which the select fires the exhausted finality arm, the
network arm, then drains the two pending best blocks. -/
def demoSchedule : List Arm := [.finality, .net, .best, .finality, .best]

/-- Every step of the loop leaves an exhausted best stream exhausted: no arm
refills it. -/
theorem selectStep_preserves_best_empty (st st2 : LoopState) (a : Arm)
    (cs : List NetCall) (hb : st.bestStream = [])
    (hstep : selectStep st a = some (st2, cs)) : st2.bestStream = [] := by
  cases a with
  | best => simp [selectStep, hb] at hstep
  | finality =>
    cases hf : st.finalityStream with
    | nil =>
      simp [selectStep, hf] at hstep
      rw [← hstep.1, hb]
    | cons nh rest =>
      simp [selectStep, hf] at hstep
      rw [← hstep.1]
      exact hb
  | net =>
    simp [selectStep] at hstep
    rw [← hstep.1, hb]

/-- Prefixing calls does not change whether a run stopped. -/
theorem isStopped_prependCalls (o : RunOutcome) (cs : List NetCall) :
    (o.prependCalls cs).isStopped = o.isStopped := by
  cases o <;> rfl

/-- Once the best stream is exhausted, any schedule that ever fires the best
arm drives the loop into the Stopped state. -/
theorem runLoop_stops_of_best_empty (sched : List Arm) :
    ∀ (st : LoopState), st.bestStream = [] → Arm.best ∈ sched →
      (runLoop sched st).isStopped = true := by
  induction sched with
  | nil =>
    intro st _ hm
    cases hm
  | cons a rest ih =>
    intro st hb hm
    cases a with
    | best => simp [runLoop, selectStep, hb, RunOutcome.isStopped]
    | finality =>
      have hm2 : Arm.best ∈ rest := by cases hm with | tail _ hm2 => exact hm2
      cases hf : st.finalityStream with
      | nil =>
        rw [runLoop]
        simp only [selectStep, hf]
        rw [isStopped_prependCalls]
        exact ih st hb hm2
      | cons nh rest2 =>
        rw [runLoop]
        simp only [selectStep, hf]
        rw [isStopped_prependCalls]
        exact ih _ hb hm2
    | net =>
      have hm2 : Arm.best ∈ rest := by cases hm with | tail _ hm2 => exact hm2
      rw [runLoop]
      simp only [selectStep]
      rw [isStopped_prependCalls]
      exact ih st hb hm2

/-- Dropping errors from a run of Ok items keeps every item. -/
theorem dropErroredItems_oks (l : List Header) :
    dropErroredItems (l.map Except.ok) = l := by
  induction l with
  | nil => rfl
  | cons h t ih =>
    have step : dropErroredItems ((h :: t).map Except.ok) =
        h :: dropErroredItems (t.map Except.ok) := rfl
    rw [step, ih]

/-- Dropping errors from a sequence with a single erroring item in the
middle yields the surrounding Ok items in order. -/
theorem dropErroredItems_split (a b : List Header) (e : RpcErr) :
    dropErroredItems (a.map Except.ok ++ .error e :: b.map Except.ok) = a ++ b := by
  simp only [dropErroredItems, List.filterMap_append, List.filterMap_cons]
  have he : (Except.error e : Except RpcErr Header).toOption = none := rfl
  rw [he]
  have ha := dropErroredItems_oks a
  have hb := dropErroredItems_oks b
  simp only [dropErroredItems] at ha hb
  rw [ha, hb]


/-- Claim C1: whenever the best header, the head-at-depth-0 hash, the
finalized-head hash and the finalized header are all fetched successfully,
info returns the composite snapshot assembled from exactly those four
sub-queries: best hash and number from the best header, genesis hash from
the depth-0 query, finalized hash from the finalized-head query, finalized
number from the finalized header. -/
theorem c1_info_composite_snapshot
    (s : RemoteState) (bh : Header) (g fh : Hash) (finh : Header)
    (h1 : s.chainGetHeader none = .ok (some bh))
    (h2 : s.chainGetHead (some 0) = .ok g)
    (h3 : s.chainGetFinalizedHead = .ok fh)
    (h4 : s.chainGetHeader (some fh) = .ok (some finh)) :
    HeaderBackend.info s =
      .ok
        { best_hash := s.hashOf bh
          best_number := bh.number
          genesis_hash := g
          finalized_hash := fh
          finalized_number := finh.number
          finalized_state := none
          number_leaves := 1
          block_gap := none } := by
  simp only [HeaderBackend.info, h1, h2, h3, h4]

/-- Claim C2: number is derived from the same header lookup as header, so for
every hash the two agree on the success/failure outcome and on the value:
whatever header returns for a hash pointer (it never aborts there), number
returns the same result with the header projected to its number field. -/
theorem c2_number_derived_from_header
    (s : RemoteState) (h : Hash) (r : Except BErr (Option Header))
    (hh : HeaderBackend.header s (.hash h) = .ok r) :
    HeaderBackend.number s h = r.map (fun mh => mh.map (fun hd => hd.number)) := by
  simp only [HeaderBackend.header, PanicOr.ok.injEq] at hh
  simp only [HeaderBackend.number, ← hh]
/-- Witness for C1 at the spec scenario: genesis hash 1, best header at
height 10 with content hash 10, finalized header at height 7 with content
hash 7. -/
theorem c1_info_composite_snapshot_witness :
    demoState.chainGetHeader none = Except.ok (some bestHeader10) ∧
    HeaderBackend.info demoState =
      .ok
        { best_hash := 10, best_number := 10, genesis_hash := 1,
          finalized_hash := 7, finalized_number := 7,
          finalized_state := none, number_leaves := 1, block_gap := none } :=
  ⟨rfl, c1_info_composite_snapshot demoState bestHeader10 1 7 finalHeader7 rfl rfl rfl rfl⟩

/-- Witness for C2 at the finalized header of the concrete endpoint. -/
theorem c2_number_derived_from_header_witness :
    HeaderBackend.number demoState 7 = Except.ok (some 7) :=
  c2_number_derived_from_header demoState 7 (Except.ok (some finalHeader7)) rfl

/-- Counterexample to C3 as stated: HeaderBackend::status at a concrete
number pointer does not return a typed unsupported-operation error value; it
aborts (the unimplemented macro panics). -/
theorem c3_counterexample_status_aborts :
    HeaderBackend.status demoState (BlockId.number 5) = .panicked ("not implemented") ∧
    (HeaderBackend.status demoState (BlockId.number 5)).isOk = false :=
  ⟨rfl, rfl⟩

/-- Claim C3 (amended): every number-addressed lookup (header with a number
pointer, status, hash-by-number, block_status with a number pointer) and
every block-body, proof-provider or header-metadata operation aborts the
process through an unimplemented or todo panic; none of them returns a
typed error, a transport error, or a silent default. -/
theorem c3_unsupported_operations_abort
    (s : RemoteState) (id : BlockId) (n : Nat) (h root : Hash)
    (ks : List (List Nat)) (k : List Nat) (mstr : String) (m : Header) :
    (HeaderBackend.header s (.number n)).isPanicked = true ∧
    (HeaderBackend.status s id).isPanicked = true ∧
    (HeaderBackend.hash s n).isPanicked = true ∧
    (BlockBackend.block_status s (.number n)).isPanicked = true ∧
    (BlockBackend.block_body s id).isPanicked = true ∧
    (BlockBackend.block_indexed_body s id).isPanicked = true ∧
    (BlockBackend.block s id).isPanicked = true ∧
    (BlockBackend.justifications s id).isPanicked = true ∧
    (BlockBackend.block_hash s n).isPanicked = true ∧
    (BlockBackend.indexed_transaction s h).isPanicked = true ∧
    (ProofProvider.read_proof s id ks).isPanicked = true ∧
    (ProofProvider.read_child_proof s id ks).isPanicked = true ∧
    (ProofProvider.execution_proof s id mstr k).isPanicked = true ∧
    (ProofProvider.read_proof_collection s id ks n).isPanicked = true ∧
    (ProofProvider.storage_collection s id k n).isPanicked = true ∧
    (ProofProvider.verify_range_proof s root k ks).isPanicked = true ∧
    (HeaderMetadata.header_metadata s h).isPanicked = true ∧
    (HeaderMetadata.insert_header_metadata s h m).isPanicked = true ∧
    (HeaderMetadata.remove_header_metadata s h).isPanicked = true :=
  ⟨rfl, rfl, rfl, rfl, rfl, rfl, rfl, rfl, rfl, rfl,
   rfl, rfl, rfl, rfl, rfl, rfl, rfl, rfl, rfl⟩

/-- Counterexample to C4 as stated: an execution whose finality stream is
exhausted from the start, under a schedule that fires the finality arm, the
network arm and then drains the best stream; the loop does not reach the
Stopped state and makes two further calls against the network handle. -/
theorem c4_counterexample_finality_end_no_stop :
    demoLoopState.finalityStream = [] ∧
    (runLoop demoSchedule demoLoopState).isStopped = false ∧
    (runLoop demoSchedule demoLoopState).callsOf =
      [.newBestBlockImported 21 1, .newBestBlockImported 22 2] :=
  ⟨rfl, rfl, rfl⟩

/-- Claim C4 (amended): the driving loop terminates when the best-block
stream is exhausted — once the best stream is empty, any schedule that ever
fires the best arm reaches the Stopped state; exhaustion of the finality
stream alone does not terminate the loop, because its select_next_some
branch never resolves on an exhausted stream, so firing it has no effect. -/
theorem c4_loop_stops_only_on_best_exhaustion (st : LoopState) (sched : List Arm) :
    (st.bestStream = [] → Arm.best ∈ sched → (runLoop sched st).isStopped = true) ∧
    (st.finalityStream = [] → selectStep st Arm.finality = some (st, [])) := by
  constructor
  · intro hb hm
    exact runLoop_stops_of_best_empty sched st hb hm
  · intro hf
    simp [selectStep, hf]

/-- Witness for C4 (amended): a loop state with an exhausted best stream
stops under a schedule firing the network arm and then the best arm. -/
theorem c4_loop_stops_only_on_best_exhaustion_witness :
    (runLoop [Arm.net, Arm.best] demoStoppedState).isStopped = true :=
  (c4_loop_stops_only_on_best_exhaustion demoStoppedState [Arm.net, Arm.best]).1
    rfl (by decide)

/-- Counterexample to C5 as stated: on_chain_votes, one of the query methods
the claim names, does not return an unsupported-operation error on a
number-addressed pointer; it aborts (the unimplemented macro panics). -/
theorem c5_counterexample_on_chain_votes_aborts :
    OverseerRuntimeClient.on_chain_votes demoState (BlockId.number 0) =
      .panicked ("not implemented") ∧
    (OverseerRuntimeClient.on_chain_votes demoState (BlockId.number 0)).isOk = false :=
  ⟨rfl, rfl⟩

/-- Claim C5 (amended): the hash-dispatching runtime-client methods
(validators, validator_groups, availability_cores, persisted_validation_data,
session_index_for_child, session_info and the other delegating methods)
return the only-hash unsupported-operation error as their result on a
non-hash pointer, locally — for every remote endpoint state, without issuing
a remote call; on_chain_votes and configuration instead abort through the
unimplemented macro for every pointer. -/
theorem c5_nonhash_pointer_behaviour
    (s : RemoteState) (n para_id assumption index : Nat) :
    OverseerRuntimeClient.validators s (.number n) = .ok (.error onlyHashErr) ∧
    OverseerRuntimeClient.validator_groups s (.number n) = .ok (.error onlyHashErr) ∧
    OverseerRuntimeClient.availability_cores s (.number n) = .ok (.error onlyHashErr) ∧
    OverseerRuntimeClient.persisted_validation_data s (.number n) para_id assumption =
      .ok (.error onlyHashErr) ∧
    OverseerRuntimeClient.session_index_for_child s (.number n) = .ok (.error onlyHashErr) ∧
    OverseerRuntimeClient.session_info s (.number n) index = .ok (.error onlyHashErr) ∧
    OverseerRuntimeClient.on_chain_votes s (.number n) = .panicked ("not implemented") ∧
    OverseerRuntimeClient.configuration s (.number n) = .panicked ("not implemented") :=
  ⟨rfl, rfl, rfl, rfl, rfl, rfl, rfl, rfl⟩

/-- Claim C6: each notification stream, fed a subscription with exactly one
erroring item, yields all the other items in their original relative order
with only the erroring item omitted — N-1 items out of N — and does not
terminate at the erroring item. -/
theorem c6_single_error_item_dropped
    (a b a2 b2 : List Header) (e e2 : RpcErr) (s : RemoteState)
    (h1 : s.allHeadsSubscription = a.map Except.ok ++ .error e :: b.map Except.ok)
    (h2 : s.finalizedHeadsSubscription = a2.map Except.ok ++ .error e2 :: b2.map Except.ok) :
    import_notification_stream_async s = a ++ b ∧
    (import_notification_stream_async s).length + 1 = s.allHeadsSubscription.length ∧
    finality_notification_stream_async s = a2 ++ b2 ∧
    (finality_notification_stream_async s).length + 1 =
      s.finalizedHeadsSubscription.length := by
  have e1 : import_notification_stream_async s = a ++ b := by
    rw [import_notification_stream_async, h1, dropErroredItems_split]
  have e2h : finality_notification_stream_async s = a2 ++ b2 := by
    rw [finality_notification_stream_async, h2, dropErroredItems_split]
  refine ⟨e1, ?_, e2h, ?_⟩
  · rw [e1, h1]
    simp only [List.length_append, List.length_map, List.length_cons]
    omega
  · rw [e2h, h2]
    simp only [List.length_append, List.length_map, List.length_cons]
    omega

/-- Witness for C6 at the concrete endpoint: the all-heads subscription has
its single erroring item in the middle of three, the finalized-heads
subscription has its single erroring item first of two. -/
theorem c6_single_error_item_dropped_witness :
    import_notification_stream_async demoState = [bestHeader10, finalHeader7] ∧
    finality_notification_stream_async demoState = [finalHeader7] := by
  have h := c6_single_error_item_dropped [bestHeader10] [finalHeader7] [] [finalHeader7]
    (.transport ("malformed item")) (.transport ("malformed item")) demoState rfl rfl
  exact ⟨h.1, h.2.2.1⟩

/-- Claim C7: block_status on a hash pointer returns in-chain-with-state
exactly when the remote lookup succeeds with some header, unknown exactly
when it succeeds with no header, and never any other status value. -/
theorem c7_block_status_coarse (s : RemoteState) (h : Hash) :
    (BlockBackend.block_status s (.hash h) = .ok (.ok .inChainWithState) ↔
      ∃ hdr, s.chainGetHeader (some h) = .ok (some hdr)) ∧
    (BlockBackend.block_status s (.hash h) = .ok (.ok .unknown) ↔
      s.chainGetHeader (some h) = .ok none) ∧
    (∀ stt, BlockBackend.block_status s (.hash h) = .ok (.ok stt) →
      stt = .inChainWithState ∨ stt = .unknown) := by
  cases hq : s.chainGetHeader (some h) with
  | error e =>
    refine ⟨?_, ?_, ?_⟩ <;> simp [BlockBackend.block_status, hq]
  | ok mh =>
    cases mh with
    | none =>
      refine ⟨?_, ?_, ?_⟩ <;> simp [BlockBackend.block_status, hq]
    | some hdr =>
      refine ⟨?_, ?_, ?_⟩ <;> simp [BlockBackend.block_status, hq]

/-- Witness for C7: the concrete endpoint produces a header for hash 7, so
block_status reports in-chain-with-state there. -/
theorem c7_block_status_coarse_witness :
    BlockBackend.block_status demoState (.hash 7) = .ok (.ok .inChainWithState) :=
  (c7_block_status_coarse demoState 7).1.mpr ⟨finalHeader7, rfl⟩

/-- Claim C8: the network-worker task is gated on the one-shot start token:
when the token fires the network future (the driving loop) runs; when the
token is dropped without firing, the task logs a warning and returns without
polling the network future, raising no error. -/
theorem c8_network_future_gated_on_start (sched : List Arm) (st : LoopState) :
    networkWorkerTask .fired sched st =
      { warned := false, loopRun := some (runLoop sched st) } ∧
    networkWorkerTask .droppedWithoutFiring sched st =
      { warned := true, loopRun := none } :=
  ⟨rfl, rfl⟩

/-- Counterexample to C9 as stated: the synchronous header method does not
bridge through the shared runtime with its blocking-allowed escape — it
parks the thread on the local futures executor. -/
theorem c9_counterexample_header_uses_local_executor :
    header_bridge.usesBlockingAllowedEscape = false ∧
    header_bridge.runsOnSharedRuntime = false :=
  ⟨rfl, rfl⟩

/-- Claim C9 (amended): info, number and block_status bridge through
block_local, which runs the call on the shared runtime handle inside its
blocking-allowed escape; header instead calls the local futures executor
directly, which neither targets the shared runtime nor marks the thread as
allowed to block. -/
theorem c9_blocking_bridge_mechanisms :
    info_bridge = block_local ∧
    number_bridge = block_local ∧
    block_status_bridge = block_local ∧
    block_local.runsOnSharedRuntime = true ∧
    block_local.usesBlockingAllowedEscape = true ∧
    header_bridge = futures_executor_block_on ∧
    futures_executor_block_on.runsOnSharedRuntime = false ∧
    futures_executor_block_on.usesBlockingAllowedEscape = false :=
  ⟨rfl, rfl, rfl, rfl, rfl, rfl, rfl, rfl⟩

/-- Claim C10: when the hash-at-height-0 query succeeds with an empty
result, node construction does not fail; the all-zeros default hash is
silently substituted as the genesis hash and fed, with the fork identifier,
to the peer-set protocol names, the request-response protocol names and the
collator network. -/
theorem c10_empty_genesis_result_defaults (forkId : Option String) :
    new_minimal_relay_chain (.ok none) forkId =
      .ok
        { genesis_hash := defaultHash
          peer_set_genesis := defaultHash
          peer_set_fork_id := forkId
          req_protocol_genesis := defaultHash
          req_protocol_fork_id := forkId
          network_genesis := defaultHash } ∧
    defaultHash = 0 :=
  ⟨rfl, rfl⟩
